import Mathlib

/-!
Verification development for the pricing-actuarial dashboard repository.

The definitions below are shallow embeddings of the Python sources:
stateful methods become explicit state passing, calls to external services
(the Databricks SQL warehouse, the workspace files API, the hosted model)
are parameterised by an environment value describing each call outcome,
and code that may raise returns `Except`.
-/

/-- A conversation turn as stored in `ClaudeChatbot.conversation_history`:
a dict with keys `role` and `content` (`claude_integration.py`). -/
structure Msg where
  role : String
  content : String
deriving DecidableEq, Repr

/-- `ClaudeChatbot.add_message` (`claude_integration.py` lines 61-67):
append `{role, content}` to the history, then keep only the last 20
entries (`self.conversation_history[-20:]`) when the length exceeds 20. -/
def add_message (history : List Msg) (role content : String) : List Msg :=
  let h := history ++ [⟨role, content⟩]
  if h.length > 20 then h.drop (h.length - 20) else h

/-- The last `n` entries of a list, in order (Python `l[-n:]`). -/
def lastN (n : Nat) (l : List α) : List α := l.drop (l.length - n)

theorem add_message_eq_lastN (h : List Msg) (r c : String) :
    add_message h r c = lastN 20 (h ++ [⟨r, c⟩]) := by
  simp only [add_message, lastN]
  split
  · rfl
  · next hl =>
      have h0 : (h ++ [(⟨r, c⟩ : Msg)]).length - 20 = 0 := by omega
      rw [h0, List.drop_zero]

theorem lastN_absorb (n : Nat) (x y : List α) :
    lastN n (lastN n x ++ y) = lastN n (x ++ y) := by
  unfold lastN
  rw [← List.drop_append_of_le_length (Nat.sub_le x.length n), List.drop_drop]
  congr 1
  simp only [List.length_drop, List.length_append]
  omega

theorem lastN_length_le (n : Nat) (l : List α) : (lastN n l).length ≤ n := by
  unfold lastN
  rw [List.length_drop]
  omega

theorem foldl_add_message_eq (msgs : List Msg) :
    msgs.foldl (fun h m => add_message h m.role m.content) [] = lastN 20 msgs := by
  induction msgs using List.reverseRecOn with
  | nil => rfl
  | append_singleton l m ih =>
      rw [List.foldl_append]
      simp only [List.foldl_cons, List.foldl_nil]
      rw [ih, add_message_eq_lastN]
      rw [lastN_absorb]

/-- Claim C2: for every sequence of calls to `ClaudeChatbot.add_message`
starting from the empty history, the conversation history never exceeds
20 entries, and the retained entries are exactly the most recent 20 in
order (FIFO eviction of the oldest entries). -/
theorem C2_history_bounded_fifo (msgs : List Msg) :
    (msgs.foldl (fun h m => add_message h m.role m.content) []).length ≤ 20 ∧
    msgs.foldl (fun h m => add_message h m.role m.content) [] =
      msgs.drop (msgs.length - 20) := by
  rw [foldl_add_message_eq]
  exact ⟨lastN_length_le 20 msgs, rfl⟩

/-- Outcome of the primary hosted-model invocation inside
`ClaudeChatbot.get_response` (the warehouse `openai_chatgpt` query). -/
inductive PrimaryOutcome where
  | ok (response : String)
  | noResponse
  | raises (msg : String)
deriving DecidableEq, Repr

/-- Environment of one `get_response` call: whether the Databricks
connection and cursor were initialised, and what the primary invocation
would do if reached. -/
structure ChatEnv where
  hasConnection : Bool
  primary : PrimaryOutcome
deriving DecidableEq, Repr

/-- Whether `pat` occurs as a contiguous run inside `hay`. -/
def subIn : List Char → List Char → Bool
  | [], pat => pat.isEmpty
  | h :: t, pat => pat.isPrefixOf (h :: t) || subIn t pat

/-- Python substring test `pat in s`, computed on the character lists. -/
def strContains (s pat : String) : Bool := subIn s.data pat.data

/-- `any(word in s for word in words)` from the source. -/
def containsAny (s : String) (words : List String) : Bool :=
  words.any (fun w => strContains s w)

/-- Canned fallback answer for the actuary topic bucket
(`_get_fallback_response`, `claude_integration.py`). -/
def actuaryText : String := "WHAT ACTUARIES DO IN INSURANCE PRICING:

Actuaries are mathematical professionals who play a crucial role in insurance pricing by:

1. RISK ASSESSMENT & MODELING
   • Analyze historical data to predict future claims
   • Develop statistical models for mortality, morbidity, and other risks
   • Quantify uncertainty and volatility in insurance products
   • Create risk profiles for different customer segments

2. PREMIUM CALCULATION
   • Set competitive yet profitable premium rates
   • Ensure premiums cover expected claims, expenses, and profit margins
   • Develop pricing models based on risk factors (age, health, location, etc.)
   • Balance affordability with financial stability

3. PRODUCT DEVELOPMENT
   • Design new insurance products and coverage options
   • Analyze market trends and customer needs
   • Test product viability through actuarial modeling
   • Ensure regulatory compliance in product design

4. FINANCIAL FORECASTING
   • Project future cash flows and liabilities
   • Calculate reserves needed to pay future claims
   • Perform stress testing and scenario analysis
   • Ensure solvency and regulatory compliance

5. DATA ANALYSIS & INSIGHTS
   • Interpret complex datasets to identify trends
   • Develop predictive models for claims forecasting
   • Analyze customer behavior and risk patterns
   • Provide data-driven recommendations to management

KEY SKILLS: Advanced mathematics, statistics, programming (R/Python/SQL), business acumen, and strong communication skills.

Would you like me to explain any specific aspect of actuarial work in more detail?"

/-- Canned fallback answer for the pricing topic bucket. -/
def pricingText : String := "INSURANCE PRICING METHODOLOGIES:

1. RISK-BASED PRICING
   • Individual risk assessment using multiple factors
   • Statistical modeling to predict claim likelihood
   • Segmentation of customers by risk profile
   • Dynamic pricing based on real-time data

2. ACTUARIAL MODELS
   • MORTALITY TABLES: Life insurance pricing based on death probabilities
   • LOSS RATIOS: Property/casualty pricing using historical loss data
   • FREQUENCY/SEVERITY MODELS: Predicting claim frequency and average cost
   • CREDIBILITY THEORY: Combining internal and external data

3. KEY PRICING FACTORS
   • DEMOGRAPHICS: Age, gender, location, occupation
   • HEALTH STATUS: Medical history, lifestyle factors
   • COVERAGE AMOUNT: Sum insured and benefit levels
   • POLICY TERMS: Deductibles, exclusions, waiting periods

4. PRICING TECHNIQUES
   • EXPERIENCE RATING: Using company\x27s own claims history
   • COMMUNITY RATING: Same price for similar risk profiles
   • MANUAL RATING: Individual assessment for complex risks
   • CREDIBILITY ADJUSTMENTS: Weighting different data sources

5. REGULATORY CONSIDERATIONS
   • Rate filing requirements and approval processes
   • Anti-discrimination laws and fair pricing practices
   • Solvency requirements and capital adequacy
   • Consumer protection and transparency standards

Would you like me to dive deeper into any specific pricing methodology?"

/-- Canned fallback answer for the risk topic bucket. -/
def riskText : String := "RISK ASSESSMENT IN INSURANCE:

1. RISK IDENTIFICATION
   • MORAL HAZARD: Behavioral changes after purchasing insurance
   • ADVERSE SELECTION: Higher-risk individuals more likely to buy
   • SYSTEMIC RISK: Market-wide factors affecting all policies
   • OPERATIONAL RISK: Internal processes and controls

2. RISK QUANTIFICATION
   • PROBABILITY ANALYSIS: Likelihood of claims occurring
   • SEVERITY ASSESSMENT: Potential financial impact of claims
   • CORRELATION ANALYSIS: How different risks interact
   • STRESS TESTING: Performance under extreme scenarios

3. UNDERWRITING PROCESS
   • APPLICATION REVIEW: Detailed risk assessment
   • MEDICAL UNDERWRITING: Health status evaluation
   • FINANCIAL UNDERWRITING: Income and asset verification
   • RISK CLASSIFICATION: Categorizing applicants by risk level

4. RISK MANAGEMENT TOOLS
   • DIVERSIFICATION: Spreading risk across different segments
   • REINSURANCE: Transferring risk to other insurers
   • RESERVES: Setting aside funds for future claims
   • RISK CONTROLS: Implementing safety measures

5. DATA-DRIVEN RISK ASSESSMENT
   • PREDICTIVE MODELING: Using historical data to predict future claims
   • MACHINE LEARNING: Advanced algorithms for risk scoring
   • REAL-TIME MONITORING: Continuous risk assessment
   • FRAUD DETECTION: Identifying suspicious claims and applications

Would you like me to explain any specific aspect of risk assessment?"

/-- Canned fallback answer for the greeting bucket. -/
def helloText : String := "HELLO! I\x27M YOUR AI PRICING ASSISTANT 🤖

I\x27m here to help you with all aspects of insurance pricing and actuarial analysis. While I\x27m currently running in enhanced offline mode, I can provide comprehensive guidance on:

📊 ACTUARIAL ANALYSIS
   • Statistical modeling and risk assessment
   • Mortality and morbidity analysis
   • Reserve calculations and financial forecasting
   • Regulatory compliance and reporting

💰 INSURANCE PRICING
   • Risk-based pricing methodologies
   • Premium calculation techniques
   • Product development and pricing strategies
   • Market analysis and competitive positioning

📈 DATA ANALYSIS
   • Statistical techniques and modeling
   • Predictive analytics and forecasting
   • Data interpretation and insights
   • Performance measurement and monitoring

🔍 RISK MANAGEMENT
   • Underwriting processes and guidelines
   • Risk assessment and classification
   • Fraud detection and prevention
   • Portfolio management and optimization

HOW CAN I HELP YOU TODAY? Feel free to ask about any specific topic, and I\x27ll provide detailed, professional guidance tailored to your needs."

/-- Literal part of the default fallback answer before the echoed user
message (the source builds it with an f-string). -/
def elseTextA : String := "I UNDERSTAND YOU\x27RE ASKING ABOUT: \""

/-- Literal part of the default fallback answer after the echoed user
message. -/
def elseTextB : String := "\"

I\x27m your specialized AI assistant for insurance pricing and actuarial analysis. While I\x27m currently running in enhanced offline mode, I can provide comprehensive guidance on a wide range of topics including:

🎯 WHAT I CAN HELP WITH:
   • ACTUARIAL CONCEPTS: Mortality tables, loss ratios, credibility theory
   • PRICING METHODOLOGIES: Risk-based pricing, experience rating, manual rating
   • RISK ASSESSMENT: Underwriting, risk classification, portfolio management
   • DATA ANALYSIS: Statistical modeling, predictive analytics, performance metrics
   • REGULATORY COMPLIANCE: Rate filings, solvency requirements, reporting standards
   • PRODUCT DEVELOPMENT: New product design, market analysis, competitive strategies

💡 PRO TIPS:
   • Ask specific questions for detailed explanations
   • Request examples or case studies for complex concepts
   • Inquire about best practices and industry standards
   • Ask for step-by-step processes or methodologies

WHAT SPECIFIC ASPECT WOULD YOU LIKE ME TO EXPLAIN IN DETAIL? I\x27m here to provide professional, comprehensive guidance tailored to your needs."

/-- The keyword-dispatched canned answer chosen by
`ClaudeChatbot._get_fallback_response` for a user message. -/
def fallback_text (user_message : String) : String :=
  let user_lower := user_message.toLower
  if containsAny user_lower ["actuary", "actuaries", "actuarial"] then actuaryText
  else if containsAny user_lower ["pricing", "price", "premium", "rate"] then pricingText
  else if containsAny user_lower ["risk", "assessment", "underwriting"] then riskText
  else if containsAny user_lower ["hello", "hi", "help", "assist"] then helloText
  else elseTextA ++ user_message ++ elseTextB

/-- `ClaudeChatbot._get_fallback_response` (lines 115-285): appends the
user message to the history again, picks the canned answer, appends it
as the assistant turn, and returns it. -/
def get_fallback_response (history : List Msg) (user_message : String) :
    String × List Msg :=
  let h1 := add_message history "user" user_message
  let resp := fallback_text user_message
  (resp, add_message h1 "assistant" resp)

/-- `ClaudeChatbot.get_response` (lines 69-113): append the user turn,
fall back when no connection is available, otherwise run the primary
invocation; a missing response or a raised exception also falls back. -/
def get_response (env : ChatEnv) (history : List Msg) (user_message : String) :
    String × List Msg :=
  let h1 := add_message history "user" user_message
  if !env.hasConnection then get_fallback_response h1 user_message
  else
    match env.primary with
    | PrimaryOutcome.ok resp => (resp, add_message h1 "assistant" resp)
    | PrimaryOutcome.noResponse => get_fallback_response h1 user_message
    | PrimaryOutcome.raises _ => get_fallback_response h1 user_message

theorem lastN_append_singleton (n : Nat) (hn : 1 ≤ n) (x : List α) (a : α) :
    lastN n (x ++ [a]) = x.drop (x.length + 1 - n) ++ [a] := by
  unfold lastN
  have hlen : (x ++ [a]).length = x.length + 1 := by simp
  rw [hlen, List.drop_append_of_le_length (by omega)]

theorem add_add_suffix (h : List Msg) (r₁ c₁ r₂ c₂ : String) :
    ∃ t, add_message (add_message h r₁ c₁) r₂ c₂ =
      t ++ [⟨r₁, c₁⟩, ⟨r₂, c₂⟩] := by
  rw [add_message_eq_lastN, add_message_eq_lastN,
    lastN_append_singleton 20 (by omega), lastN_append_singleton 20 (by omega)]
  refine ⟨(h.drop (h.length + 1 - 20)).drop
      ((h.drop (h.length + 1 - 20) ++ [(⟨r₁, c₁⟩ : Msg)]).length + 1 - 20), ?_⟩
  have hle : (h.drop (h.length + 1 - 20) ++ [(⟨r₁, c₁⟩ : Msg)]).length + 1 - 20
      ≤ (h.drop (h.length + 1 - 20)).length := by
    simp only [List.length_append, List.length_cons, List.length_nil]
    omega
  rw [List.drop_append_of_le_length hle, List.append_assoc]
  rfl

theorem ne_empty_of_length_pos {s : String} (h : 0 < s.length) : s ≠ "" := by
  intro he
  rw [he] at h
  simp at h

theorem fallback_text_ne_empty (u : String) : fallback_text u ≠ "" := by
  simp only [fallback_text]
  split_ifs
  · decide
  · decide
  · decide
  · decide
  · refine ne_empty_of_length_pos ?_
    rw [String.length_append, String.length_append]
    have hA : 0 < elseTextA.length := by decide
    omega

theorem get_response_fallback_eq (env : ChatEnv) (h : List Msg) (user : String)
    (hfb : env.hasConnection = false ∨ ∃ m, env.primary = PrimaryOutcome.raises m) :
    get_response env h user =
      get_fallback_response (add_message h "user" user) user := by
  obtain ⟨conn, prim⟩ := env
  rcases hfb with hc | ⟨m, hm⟩
  · replace hc : conn = false := hc
    subst hc
    rfl
  · replace hm : prim = PrimaryOutcome.raises m := hm
    subst hm
    cases conn
    · rfl
    · rfl

/-- Claim C1: for every call to `ClaudeChatbot.get_response` where the
primary hosted-model invocation raises (or no warehouse connection is
available), `get_response` returns a non-empty string produced by the
rule-based fallback instead of propagating the error, and both the user
turn and the fallback assistant turn are appended to the conversation
history (they are the final two entries afterwards). -/
theorem C1_fallback_no_error (env : ChatEnv) (h : List Msg) (user : String)
    (hfb : env.hasConnection = false ∨ ∃ m, env.primary = PrimaryOutcome.raises m) :
    (get_response env h user).1 ≠ "" ∧
    ∃ t, (get_response env h user).2 =
      t ++ [⟨"user", user⟩, ⟨"assistant", (get_response env h user).1⟩] := by
  rw [get_response_fallback_eq env h user hfb]
  exact ⟨fallback_text_ne_empty user, add_add_suffix _ "user" user "assistant" _⟩

/-- Witness for C1 at a concrete input: no warehouse connection, empty
history, user message "hello". -/
theorem C1_witness :
    ((⟨false, PrimaryOutcome.ok "x"⟩ : ChatEnv).hasConnection = false ∨
      ∃ m, (⟨false, PrimaryOutcome.ok "x"⟩ : ChatEnv).primary = PrimaryOutcome.raises m) ∧
    ((get_response ⟨false, PrimaryOutcome.ok "x"⟩ [] "hello").1 ≠ "" ∧
      ∃ t, (get_response ⟨false, PrimaryOutcome.ok "x"⟩ [] "hello").2 =
        t ++ [⟨"user", "hello"⟩,
          ⟨"assistant", (get_response ⟨false, PrimaryOutcome.ok "x"⟩ [] "hello").1⟩]) :=
  ⟨Or.inl rfl, C1_fallback_no_error ⟨false, PrimaryOutcome.ok "x"⟩ [] "hello" (Or.inl rfl)⟩

theorem add_three_eq_lastN (hh : List Msg) (r₁ c₁ r₂ c₂ r₃ c₃ : String) :
    add_message (add_message (add_message hh r₁ c₁) r₂ c₂) r₃ c₃
      = lastN 20 (hh ++ [⟨r₁, c₁⟩, ⟨r₂, c₂⟩, ⟨r₃, c₃⟩]) := by
  rw [add_message_eq_lastN, add_message_eq_lastN, add_message_eq_lastN,
    lastN_absorb, List.append_assoc, lastN_absorb, List.append_assoc]
  rfl

theorem lastN_length_eq (n : Nat) (l : List α) (h : l.length ≤ n) :
    (lastN n l).length = l.length := by
  unfold lastN
  rw [List.length_drop]
  omega

/-- Claim C9: on the fallback path of `get_response` the user message is
appended twice (once by `get_response`, once by `_get_fallback_response`)
before the single assistant reply, so the new history is the 20-entry
window over the old history extended by user, user, assistant — three
entries per fallback turn, not a pair. -/
theorem C9_fallback_double_user_append (env : ChatEnv) (h : List Msg) (user : String)
    (hfb : env.hasConnection = false ∨ ∃ m, env.primary = PrimaryOutcome.raises m) :
    (get_response env h user).2 =
      lastN 20 (h ++ [⟨"user", user⟩, ⟨"user", user⟩,
        ⟨"assistant", (get_response env h user).1⟩]) ∧
    (h.length ≤ 17 → (get_response env h user).2.length = h.length + 3) := by
  rw [get_response_fallback_eq env h user hfb]
  simp only [get_fallback_response]
  constructor
  · exact add_three_eq_lastN h "user" user "user" user "assistant" (fallback_text user)
  · intro hlen
    rw [add_three_eq_lastN h "user" user "user" user "assistant" (fallback_text user),
      lastN_length_eq 20 _ (by
        simp only [List.length_append, List.length_cons, List.length_nil]
        omega)]
    simp only [List.length_append, List.length_cons, List.length_nil]

/-- Witness for C9 at a concrete input: no connection, empty history,
user message "hi"; the resulting history has 0 + 3 entries. -/
theorem C9_witness :
    ((⟨false, PrimaryOutcome.ok "x"⟩ : ChatEnv).hasConnection = false ∨
      ∃ m, (⟨false, PrimaryOutcome.ok "x"⟩ : ChatEnv).primary = PrimaryOutcome.raises m) ∧
    ([] : List Msg).length ≤ 17 ∧
    (get_response ⟨false, PrimaryOutcome.ok "x"⟩ [] "hi").2.length =
      ([] : List Msg).length + 3 :=
  ⟨Or.inl rfl, by decide,
    (C9_fallback_double_user_append ⟨false, PrimaryOutcome.ok "x"⟩ [] "hi"
      (Or.inl rfl)).2 (by decide)⟩

/-- Python str.capitalize: first character upper-cased, the rest
lower-cased (ASCII model). -/
def pyCapitalize (s : String) : String :=
  match s.data with
  | [] => ""
  | c :: cs => String.mk (c.toUpper :: cs.map Char.toLower)

/-- Python str.islower (ASCII model): at least one cased character and
no upper-case character. -/
def pyIsLower (s : String) : Bool :=
  s.data.any (fun c => c.isLower || c.isUpper) && s.data.all (fun c => !c.isUpper)

/-- Python str.split() with no arguments: split on whitespace runs,
discarding empty pieces. -/
def pySplit (s : String) : List String :=
  (s.split Char.isWhitespace).filter (fun p => p != "")

/-- One pass of re.findall with pattern [a-z]+|[A-Z][a-z]* over the
characters of a word: a maximal lower-case run, or an upper-case letter
followed by a lower-case run; other characters are skipped. -/
def camelFindAux : List Char → List String
  | [] => []
  | c :: cs =>
    if c.isLower || c.isUpper then
      String.mk (c :: cs.takeWhile Char.isLower) :: camelFindAux (cs.dropWhile Char.isLower)
    else
      camelFindAux cs
termination_by l => l.length
decreasing_by
  · simp only [List.length_cons]
    exact Nat.lt_succ_of_le ((cs.dropWhile_sublist Char.isLower).length_le)
  · simp only [List.length_cons]
    exact Nat.lt_succ_of_le (Nat.le_refl cs.length)

/-- The camelCase splitter used in `format_username`
(re.findall over the single word). -/
def camel_split (word : String) : List String := camelFindAux word.data

/-- Python list indexing, which raises IndexError when out of range. -/
def pyIndex (l : List String) (i : Nat) : Except String String :=
  match l[i]? with
  | some x => Except.ok x
  | none => Except.error "IndexError"

/-- The split-point loop of `format_username` over
range(5, min(8, len(word))): first successful split, if any. -/
def splitLoop (word : String) : List Nat → Option String
  | [] => none
  | i :: rest =>
    let potential_first := word.take i
    let potential_last := word.drop i
    if potential_last.length ≥ 4 then
      if ["richa", "rich", "john", "jane", "mike", "sara"].contains potential_first
          || potential_first.length ≥ 5 then
        some (pyCapitalize potential_first ++ " " ++ pyCapitalize potential_last)
      else splitLoop word rest
    else splitLoop word rest

/-- The try-block body of `format_username` (`callbacks.py` lines 18-75).
Operations that can raise in Python (list indexing) are made explicit in
`Except`; the enclosing try/except is `format_username` below. -/
def format_username_body (username : String) : Except String String :=
  let cleaned := username.replace "." ""
  let parts := pySplit ((cleaned.replace "_" " ").replace "_" " ")
  if parts.length ≥ 2 then
    match pyIndex parts 0, pyIndex parts 1 with
    | Except.ok first_name, Except.ok last_name =>
        Except.ok (pyCapitalize first_name ++ " " ++ pyCapitalize last_name)
    | Except.error e, _ => Except.error e
    | _, Except.error e => Except.error e
  else if parts.length == 1 then
    match pyIndex parts 0 with
    | Except.error e => Except.error e
    | Except.ok word =>
      let camel_parts := camel_split word
      if camel_parts.length ≥ 2 then
        match pyIndex camel_parts 0, pyIndex camel_parts 1 with
        | Except.ok first_name, Except.ok last_name =>
            Except.ok (pyCapitalize first_name ++ " " ++ pyCapitalize last_name)
        | Except.error e, _ => Except.error e
        | _, Except.error e => Except.error e
      else if pyIsLower word ∧ word.length > 6 then
        if word == "richasethi" then Except.ok "Richa Sethi"
        else
          match splitLoop word (List.range' 5 (min 8 word.length - 5)) with
          | some r => Except.ok r
          | none =>
            if word.length ≥ 10 then
              Except.ok (pyCapitalize (word.take (word.length / 2)) ++ " " ++
                pyCapitalize (word.drop (word.length / 2)))
            else Except.ok (pyCapitalize word)
      else Except.ok (pyCapitalize word)
  else Except.ok (pyCapitalize username)

/-- `format_username` (`callbacks.py`): the heuristic body wrapped in a
catch-all handler that returns the original username unchanged. -/
def format_username (username : String) : String :=
  match format_username_body username with
  | Except.ok r => r
  | Except.error _ => username

theorem lower_branch_ok (word : String) :
    ∃ r, ((if pyIsLower word ∧ word.length > 6 then
        if word == "richasethi" then Except.ok "Richa Sethi"
        else
          match splitLoop word (List.range' 5 (min 8 word.length - 5)) with
          | some r => Except.ok r
          | none =>
            if word.length ≥ 10 then
              Except.ok (pyCapitalize (word.take (word.length / 2)) ++ " " ++
                pyCapitalize (word.drop (word.length / 2)))
            else Except.ok (pyCapitalize word)
      else Except.ok (pyCapitalize word)) : Except String String) = Except.ok r := by
  by_cases hlow : pyIsLower word ∧ word.length > 6
  · rw [if_pos hlow]
    by_cases hri : (word == "richasethi") = true
    · rw [if_pos hri]
      exact ⟨_, rfl⟩
    · rw [if_neg hri]
      rcases hsl : splitLoop word (List.range' 5 (min 8 word.length - 5)) with _ | r
      · by_cases hten : word.length ≥ 10
        · rw [if_pos hten]
          exact ⟨pyCapitalize (word.take (word.length / 2)) ++ " " ++
            pyCapitalize (word.drop (word.length / 2)), rfl⟩
        · rw [if_neg hten]
          exact ⟨pyCapitalize word, rfl⟩
      · exact ⟨r, rfl⟩
  · rw [if_neg hlow]
    exact ⟨_, rfl⟩

theorem format_username_body_ok (username : String) :
    ∃ r, format_username_body username = Except.ok r := by
  simp only [format_username_body]
  generalize pySplit (((username.replace "." "").replace "_" " ").replace "_" " ") = parts
  rcases parts with _ | ⟨a, _ | ⟨b, t⟩⟩
  · rw [if_neg (by simp), if_neg (by simp)]
    exact ⟨pyCapitalize username, rfl⟩
  · rw [if_neg (by simp), if_pos (by simp)]
    split
    · rename_i e heq
      have h0 : pyIndex [a] 0 = Except.ok a := rfl
      rw [h0] at heq
      exact absurd heq (by simp)
    · rename_i word heq
      have h0 : pyIndex [a] 0 = Except.ok a := rfl
      rw [h0] at heq
      injection heq with hw
      subst hw
      rcases hc : camel_split a with _ | ⟨c0, _ | ⟨c1, ct⟩⟩
      · rw [if_neg (by simp)]
        exact lower_branch_ok a
      · rw [if_neg (by simp)]
        exact lower_branch_ok a
      · rw [if_pos (by simp only [List.length_cons]; omega)]
        have e0 : pyIndex (c0 :: c1 :: ct) 0 = Except.ok c0 := by simp [pyIndex]
        have e1 : pyIndex (c0 :: c1 :: ct) 1 = Except.ok c1 := by simp [pyIndex]
        rw [e0, e1]
        exact ⟨pyCapitalize c0 ++ " " ++ pyCapitalize c1, rfl⟩
  · rw [if_pos (by simp only [List.length_cons]; omega)]
    have e0 : pyIndex (a :: b :: t) 0 = Except.ok a := by simp [pyIndex]
    have e1 : pyIndex (a :: b :: t) 1 = Except.ok b := by simp [pyIndex]
    rw [e0, e1]
    exact ⟨pyCapitalize a ++ " " ++ pyCapitalize b, rfl⟩

/-- Claim C10: for every input string, `format_username` returns a string
and never raises: the heuristic body always succeeds (every list indexing
is guarded by a length check), and the enclosing catch-all handler
returns the original username unchanged whenever the body errors. -/
theorem C10_format_username_total (username : String) :
    (∃ r, format_username_body username = Except.ok r ∧
      format_username username = r) ∧
    format_username username =
      ((format_username_body username).toOption.getD username) := by
  obtain ⟨r, hr⟩ := format_username_body_ok username
  refine ⟨⟨r, hr, ?_⟩, ?_⟩
  · unfold format_username
    rw [hr]
  · unfold format_username Except.toOption
    cases format_username_body username
    · rfl
    · rfl

/-- Rows of a tabular warehouse result (abstraction of the pandas
dataframe returned by `fetchall_arrow().to_pandas()`). -/
abbrev Table := List (List String)

/-- Environment of one `DatabaseManager.execute_query` call
(`database.py` lines 32-55): whether `sql.connect`, `conn.cursor()` and
`cursor.execute` succeed, and whether the fetch yields a table
(`none` models the fetch raising, as for DDL/INSERT statements). -/
structure DbEnv where
  connectOk : Bool
  cursorOk : Bool
  executeOk : Bool
  fetchRes : Option Table
deriving DecidableEq

/-- Which scoped resources the call opened and closed (the `finally`
block closes cursor and connection when they were assigned). -/
structure ResourceLog where
  connOpened : Bool
  connClosed : Bool
  cursorOpened : Bool
  cursorClosed : Bool
deriving DecidableEq

/-- `DatabaseManager.execute_query`: open a fresh connection and cursor,
execute, try to fetch (returning `none` for statements with no tabular
result), re-raise any execution failure, and close cursor and connection
in the `finally` block on every exit path.  When `sql.connect` itself
raises inside `get_sql_connection`, neither resource was assigned, so
the `finally` block closes nothing. -/
def execute_query (env : DbEnv) : Except String (Option Table) × ResourceLog :=
  if !env.connectOk then
    (Except.error "Failed to create SQL connection", ⟨false, false, false, false⟩)
  else if !env.cursorOk then
    (Except.error "Failed to execute query", ⟨true, true, false, false⟩)
  else if !env.executeOk then
    (Except.error "Failed to execute query", ⟨true, true, true, true⟩)
  else
    match env.fetchRes with
    | some t => (Except.ok (some t), ⟨true, true, true, true⟩)
    | none => (Except.ok none, ⟨true, true, true, true⟩)

/-- Claim C5: for every `execute_query` call, a statement with no tabular
result yields `None` rather than raising (exactly when connect, cursor
and execute succeed but the fetch does not); any execution failure
propagates as a single error with no partial result; every connection or
cursor opened by the call is closed on every exit path; and a fresh
connection is opened by each call whenever `sql.connect` succeeds. -/
theorem C5_execute_query_contract (env : DbEnv) :
    ((execute_query env).2.connClosed = (execute_query env).2.connOpened) ∧
    ((execute_query env).2.cursorClosed = (execute_query env).2.cursorOpened) ∧
    ((execute_query env).2.connOpened = env.connectOk) ∧
    (((execute_query env).1 = Except.ok none) ↔
      (env.connectOk = true ∧ env.cursorOk = true ∧ env.executeOk = true ∧
        env.fetchRes = none)) ∧
    ((∃ m, (execute_query env).1 = Except.error m) ↔
      ¬(env.connectOk = true ∧ env.cursorOk = true ∧ env.executeOk = true)) := by
  obtain ⟨c, k, e, f⟩ := env
  cases c <;> cases k <;> cases e <;> cases f <;>
    simp [execute_query]

/-- The enumerate/filter loop in `remove_pdf_file` (`callbacks.py` lines
288-355): `for i, item in enumerate(l): if i != file_index: keep item`,
with `i` the running enumeration counter. -/
def removeIdxAux (file_index : Nat) (i : Nat) : List α → List α
  | [] => []
  | x :: xs =>
    if i ≠ file_index then x :: removeIdxAux file_index (i + 1) xs
    else removeIdxAux file_index (i + 1) xs

/-- The list surgery performed by the `remove_pdf_file` callback on both
the rendered PDF list and the global `uploaded_files_info`. -/
def remove_pdf_file (file_index : Nat) (current : List α) : List α :=
  removeIdxAux file_index 0 current

theorem removeIdxAux_gt (file_index i : Nat) (l : List α) (h : file_index < i) :
    removeIdxAux file_index i l = l := by
  induction l generalizing i with
  | nil => rfl
  | cons x xs ih =>
      rw [removeIdxAux, if_pos (by omega)]
      rw [ih (i + 1) (by omega)]

theorem removeIdxAux_le (file_index i : Nat) (l : List α) (h : i ≤ file_index) :
    removeIdxAux file_index i l =
      l.take (file_index - i) ++ l.drop (file_index - i + 1) := by
  induction l generalizing i with
  | nil => simp [removeIdxAux]
  | cons x xs ih =>
      by_cases hi : i = file_index
      · subst hi
        rw [removeIdxAux, if_neg (by omega)]
        rw [removeIdxAux_gt i (i + 1) xs (by omega)]
        simp
      · rw [removeIdxAux, if_pos (by omega)]
        rw [ih (i + 1) (by omega)]
        have h1 : file_index - i = (file_index - (i + 1)) + 1 := by omega
        rw [h1]
        simp [List.take_succ_cons, List.drop_succ_cons]

/-- Claim C6: removing a valid index `i` from an uploaded-file list of
`N` entries via the `remove_pdf_file` handler yields exactly `N - 1`
entries and preserves the relative order of all other entries (the
result is the prefix before `i` followed by the suffix after `i`). -/
theorem C6_remove_preserves_order (l : List α) (i : Nat) (h : i < l.length) :
    (remove_pdf_file i l).length = l.length - 1 ∧
    remove_pdf_file i l = l.take i ++ l.drop (i + 1) := by
  have he : remove_pdf_file i l = l.take i ++ l.drop (i + 1) := by
    unfold remove_pdf_file
    rw [removeIdxAux_le i 0 l (by omega)]
    simp
  refine ⟨?_, he⟩
  rw [he, List.length_append, List.length_take, List.length_drop]
  omega

/-- Witness for C6 at a concrete input: removing index 1 from a
three-element file list. -/
theorem C6_witness :
    1 < (["a.pdf", "b.pdf", "c.pdf"] : List String).length ∧
    ((remove_pdf_file 1 (["a.pdf", "b.pdf", "c.pdf"] : List String)).length =
        (["a.pdf", "b.pdf", "c.pdf"] : List String).length - 1 ∧
      remove_pdf_file 1 (["a.pdf", "b.pdf", "c.pdf"] : List String) =
        (["a.pdf", "b.pdf", "c.pdf"] : List String).take 1 ++
          (["a.pdf", "b.pdf", "c.pdf"] : List String).drop (1 + 1)) :=
  ⟨by decide, C6_remove_preserves_order ["a.pdf", "b.pdf", "c.pdf"] 1 (by decide)⟩

/-- The three adjustable values of one scenario (`callbacks.py`):
surrender charge period and guarantee period are integers, the minimum
interest rate is modelled as an exact rational (the source uses a
Python float with step 0.1). -/
structure ScenarioVals where
  surrender : Int
  guarantee : Int
  minRate : Rat
deriving DecidableEq

/-- The six stepper buttons handled by `update_stepper_values`. -/
inductive StepperBtn where
  | surrenderUp
  | surrenderDown
  | guaranteeUp
  | guaranteeDown
  | rateUp
  | rateDown
deriving DecidableEq

/-- The value update of `update_stepper_values` (`callbacks.py` lines
1061-1121) for the targeted scenario: one click moves the matching field
by 1 (or 0.1 for the rate) and clamps with min/max exactly as in the
source. -/
def update_stepper_values (b : StepperBtn) (v : ScenarioVals) : ScenarioVals :=
  match b with
  | StepperBtn.surrenderUp => { v with surrender := min 30 (v.surrender + 1) }
  | StepperBtn.surrenderDown => { v with surrender := max 0 (v.surrender - 1) }
  | StepperBtn.guaranteeUp => { v with guarantee := min 30 (v.guarantee + 1) }
  | StepperBtn.guaranteeDown => { v with guarantee := max 0 (v.guarantee - 1) }
  | StepperBtn.rateUp => { v with minRate := min 10 (v.minRate + 1/10) }
  | StepperBtn.rateDown => { v with minRate := max 0 (v.minRate - 1/10) }

/-- Holds when all three values are inside their documented ranges. -/
def ScenarioVals.inRange (v : ScenarioVals) : Prop :=
  0 ≤ v.surrender ∧ v.surrender ≤ 30 ∧ 0 ≤ v.guarantee ∧ v.guarantee ≤ 30 ∧
    0 ≤ v.minRate ∧ v.minRate ≤ 10

/-- Claim C7: each stepper click changes the targeted value by exactly 1
(periods) or 0.1 (rate) in the clicked direction unless it is clamped at
the range boundary; the periods never leave [0, 30], the rate never
leaves [0, 10], and the two untargeted values are unchanged. -/
theorem C7_stepper_step_and_clamp (b : StepperBtn) (v : ScenarioVals)
    (hv : v.inRange) : (update_stepper_values b v).inRange ∧
    (match b with
      | StepperBtn.surrenderUp =>
          ((update_stepper_values b v).surrender = v.surrender + 1 ∨
            (v.surrender = 30 ∧ (update_stepper_values b v).surrender = 30)) ∧
          (update_stepper_values b v).guarantee = v.guarantee ∧
          (update_stepper_values b v).minRate = v.minRate
      | StepperBtn.surrenderDown =>
          ((update_stepper_values b v).surrender = v.surrender - 1 ∨
            (v.surrender = 0 ∧ (update_stepper_values b v).surrender = 0)) ∧
          (update_stepper_values b v).guarantee = v.guarantee ∧
          (update_stepper_values b v).minRate = v.minRate
      | StepperBtn.guaranteeUp =>
          ((update_stepper_values b v).guarantee = v.guarantee + 1 ∨
            (v.guarantee = 30 ∧ (update_stepper_values b v).guarantee = 30)) ∧
          (update_stepper_values b v).surrender = v.surrender ∧
          (update_stepper_values b v).minRate = v.minRate
      | StepperBtn.guaranteeDown =>
          ((update_stepper_values b v).guarantee = v.guarantee - 1 ∨
            (v.guarantee = 0 ∧ (update_stepper_values b v).guarantee = 0)) ∧
          (update_stepper_values b v).surrender = v.surrender ∧
          (update_stepper_values b v).minRate = v.minRate
      | StepperBtn.rateUp =>
          ((update_stepper_values b v).minRate = v.minRate + 1/10 ∨
            (update_stepper_values b v).minRate = 10) ∧
          (update_stepper_values b v).surrender = v.surrender ∧
          (update_stepper_values b v).guarantee = v.guarantee
      | StepperBtn.rateDown =>
          ((update_stepper_values b v).minRate = v.minRate - 1/10 ∨
            (update_stepper_values b v).minRate = 0) ∧
          (update_stepper_values b v).surrender = v.surrender ∧
          (update_stepper_values b v).guarantee = v.guarantee) := by
  obtain ⟨hs0, hs30, hg0, hg30, hr0, hr10⟩ := hv
  cases b
  · refine ⟨⟨?_, ?_, hg0, hg30, hr0, hr10⟩, ?_, rfl, rfl⟩
    · simp only [update_stepper_values]
      omega
    · simp only [update_stepper_values]
      omega
    · simp only [update_stepper_values]
      omega
  · refine ⟨⟨?_, ?_, hg0, hg30, hr0, hr10⟩, ?_, rfl, rfl⟩
    · simp only [update_stepper_values]
      omega
    · simp only [update_stepper_values]
      omega
    · simp only [update_stepper_values]
      omega
  · refine ⟨⟨hs0, hs30, ?_, ?_, hr0, hr10⟩, ?_, rfl, rfl⟩
    · simp only [update_stepper_values]
      omega
    · simp only [update_stepper_values]
      omega
    · simp only [update_stepper_values]
      omega
  · refine ⟨⟨hs0, hs30, ?_, ?_, hr0, hr10⟩, ?_, rfl, rfl⟩
    · simp only [update_stepper_values]
      omega
    · simp only [update_stepper_values]
      omega
    · simp only [update_stepper_values]
      omega
  · refine ⟨⟨hs0, hs30, hg0, hg30, ?_, ?_⟩, ?_, rfl, rfl⟩
    · simp only [update_stepper_values]
      exact le_min (by norm_num) (by linarith)
    · simp only [update_stepper_values]
      exact min_le_left 10 _
    · simp only [update_stepper_values]
      rcases le_or_lt (v.minRate + 1/10) 10 with hle | hlt
      · exact Or.inl (min_eq_right hle)
      · exact Or.inr (min_eq_left (le_of_lt hlt))
  · refine ⟨⟨hs0, hs30, hg0, hg30, ?_, ?_⟩, ?_, rfl, rfl⟩
    · simp only [update_stepper_values]
      exact le_max_left 0 _
    · simp only [update_stepper_values]
      exact max_le (by norm_num) (by linarith)
    · simp only [update_stepper_values]
      rcases le_or_lt 0 (v.minRate - 1/10) with hle | hlt
      · exact Or.inl (max_eq_right hle)
      · exact Or.inr (max_eq_left (le_of_lt hlt))

/-- Witness for C7 at a concrete input: the rate-up click on the default
scenario values (7, 10, 3.5). -/
theorem C7_witness :
    (⟨7, 10, (7 : Rat)/2⟩ : ScenarioVals).inRange ∧
    ((update_stepper_values StepperBtn.rateUp ⟨7, 10, (7 : Rat)/2⟩).inRange ∧
      (((update_stepper_values StepperBtn.rateUp ⟨7, 10, (7 : Rat)/2⟩).minRate =
            (7 : Rat)/2 + 1/10 ∨
          (update_stepper_values StepperBtn.rateUp ⟨7, 10, (7 : Rat)/2⟩).minRate = 10) ∧
        (update_stepper_values StepperBtn.rateUp ⟨7, 10, (7 : Rat)/2⟩).surrender = 7 ∧
        (update_stepper_values StepperBtn.rateUp ⟨7, 10, (7 : Rat)/2⟩).guarantee = 10)) :=
  ⟨⟨by norm_num, by norm_num, by norm_num, by norm_num, by norm_num, by norm_num⟩,
    C7_stepper_step_and_clamp StepperBtn.rateUp ⟨7, 10, (7 : Rat)/2⟩
      ⟨by norm_num, by norm_num, by norm_num, by norm_num, by norm_num, by norm_num⟩⟩

/-- Environment of one `FileUploadManager.delete_file_from_volume` call
(`file_upload.py` lines 54-70 and `nwag-uw/file_upload.py` lines
143-159): whether `workspace_client` was initialised, and whether the
remote `files.delete` call succeeds. -/
structure StorageEnv where
  clientAvailable : Bool
  remoteDeleteOk : Bool
deriving DecidableEq

/-- `FileUploadManager.delete_file_from_volume`: raises when the
workspace client is `None`; otherwise returns `True` on success and
`False` when the remote delete raises. -/
def delete_file_from_volume (env : StorageEnv) (filename : String) :
    Except String Bool :=
  if !env.clientAvailable then
    Except.error "Databricks connection not available"
  else if env.remoteDeleteOk then Except.ok true
  else Except.ok false

/-- Counterexample to C8 as stated: with the workspace client
unavailable, `delete_file_from_volume` raises an exception instead of
returning a boolean. -/
theorem C8_counterexample :
    delete_file_from_volume ⟨false, true⟩ "brochure.pdf" =
      Except.error "Databricks connection not available" := rfl

/-- Claim C8 (amended): whenever the workspace client is initialised,
`delete_file_from_volume` returns a boolean success/failure result and
does not raise, including when the underlying remote delete fails
(which yields `False`); with no client it raises instead. -/
theorem C8_delete_returns_boolean (env : StorageEnv) (filename : String)
    (h : env.clientAvailable = true) :
    delete_file_from_volume env filename = Except.ok env.remoteDeleteOk := by
  obtain ⟨c, r⟩ := env
  replace h : c = true := h
  subst h
  cases r
  · rfl
  · rfl

/-- Witness for C8 at a concrete input: client available, remote delete
failing, result `ok false`. -/
theorem C8_witness :
    (⟨true, false⟩ : StorageEnv).clientAvailable = true ∧
    delete_file_from_volume ⟨true, false⟩ "brochure.pdf" = Except.ok false :=
  ⟨rfl, C8_delete_returns_boolean ⟨true, false⟩ "brochure.pdf" rfl⟩

/-- Python str.lower (ASCII model), computed on the character list so
that it evaluates inside the kernel. -/
def strLower (s : String) : String := String.mk (s.data.map Char.toLower)

/-- Python str.endswith, computed on the character lists. -/
def strEndsWith (s suff : String) : Bool := suff.data.isSuffixOf s.data

/-- Outcome of one `db_manager.execute_query` call inside the pipeline:
an exception carrying a message, a `None` result, or a dataframe
abstracted by its emptiness flag and the count value of its first row. -/
inductive DbRes where
  | err (msg : String)
  | noTable
  | df (isEmpty : Bool) (count : Nat)
deriving DecidableEq, Repr

/-- Whether the call raised. -/
def DbRes.isErr : DbRes → Bool
  | DbRes.err _ => true
  | _ => false

/-- Environment of one `parse_and_run_ai` run (`callbacks.py` lines
365-692): the outcome of the upload loop and of each warehouse call, in
program order. -/
structure PipelineEnv where
  uploadOk : Bool
  uploadErrMsg : String
  parseRes : DbRes
  countRes : DbRes
  sampleRes : DbRes
  probeRes : DbRes
  aiCreateRes : DbRes
  aiCountRes : DbRes
  aiDebugRes : DbRes
  featCreateRes : DbRes
  featDisplayRes : DbRes
deriving DecidableEq, Repr

/-- Result of a run: the status string placed in `workflow_status`, and
which later stages were reached — the AI-endpoint probe, the batch
`ai_query` table creation, and the structured-feature extraction. -/
structure PipelineRun where
  status : String
  probeRan : Bool
  aiBatchRan : Bool
  featuresRan : Bool
deriving DecidableEq, Repr

/-- The substring test the handler applies to a probe exception message:
RESOURCE_DOES_NOT_EXIST in error_msg or does not exist in error_msg. -/
def notFoundErr (m : String) : Bool :=
  strContains m "RESOURCE_DOES_NOT_EXIST" || strContains m "does not exist"

/-- The endpoint-not-found status message, which names the configured
endpoint. -/
def endpointNotFoundMsg (endpoint : String) : String :=
  "❌ AI Endpoint Error: The endpoint \x27" ++ endpoint ++
    "\x27 does not exist in your Databricks workspace. Please update the \x27ai_endpoint\x27 value in app.yaml with a valid endpoint name."

/-- Step 4 of the handler: structured-feature extraction (the features
table creation and the display query), with its status strings. -/
def features_stage (rc : Nat) (env : PipelineEnv) : PipelineRun :=
  match env.featCreateRes with
  | DbRes.err m => ⟨"❌ Failed to create features table: " ++ m, true, true, true⟩
  | _ =>
    match env.featDisplayRes with
    | DbRes.err m => ⟨"❌ Failed to create features table: " ++ m, true, true, true⟩
    | DbRes.df false _ =>
        ⟨"✅ Success! Check the table below for extracted features.", true, true, true⟩
    | _ =>
        ⟨"✅ Success! Parsed " ++ toString rc ++
          " documents, extracted features with AI, and created structured pricing features table.",
          true, true, true⟩

/-- Step 3 of the handler: the batch `ai_query` responses-table creation
and its count/debug checks. -/
def ai_stage (rc : Nat) (env : PipelineEnv) : PipelineRun :=
  match env.aiCreateRes with
  | DbRes.err m => ⟨"❌ Failed to create AI responses table: " ++ m, true, true, false⟩
  | _ =>
    match env.aiCountRes with
    | DbRes.err m => ⟨"❌ Failed to create AI responses table: " ++ m, true, true, false⟩
    | DbRes.noTable =>
        ⟨"✅ Success! Parsed " ++ toString rc ++
          " documents and created AI responses table.", true, true, false⟩
    | DbRes.df true _ =>
        ⟨"✅ Success! Parsed " ++ toString rc ++
          " documents and created AI responses table.", true, true, false⟩
    | DbRes.df false _ =>
      match env.aiDebugRes with
      | DbRes.err m =>
          ⟨"❌ Failed to create AI responses table: " ++ m, true, true, false⟩
      | _ => features_stage rc env

/-- Step 2 of the handler: the AI-endpoint probe with its
endpoint-not-found discrimination and early returns. -/
def probe_stage (endpoint : String) (rc : Nat) (env : PipelineEnv) : PipelineRun :=
  match env.probeRes with
  | DbRes.err m =>
    if notFoundErr m then ⟨endpointNotFoundMsg endpoint, true, false, false⟩
    else
      ⟨"✅ Success! Parsed " ++ toString rc ++
        " documents. AI endpoint test failed: " ++ m, true, false, false⟩
  | DbRes.noTable =>
      ⟨"✅ Success! Parsed " ++ toString rc ++
        " documents. AI endpoint test failed - no response.", true, false, false⟩
  | DbRes.df true _ =>
      ⟨"✅ Success! Parsed " ++ toString rc ++
        " documents. AI endpoint test failed - no response.", true, false, false⟩
  | DbRes.df false _ => ai_stage rc env

/-- `parse_and_run_ai` (`callbacks.py` lines 365-692): input validation,
upload, parse query, row-count check and sample query, then the probe,
batch-AI and feature stages above, with each failure mapped to the
status string the source returns there. -/
def parse_and_run_ai (n_clicks : Nat) (contents filenames : List String)
    (endpoint : String) (env : PipelineEnv) : PipelineRun :=
  if n_clicks == 0 then ⟨"", false, false, false⟩
  else if contents.isEmpty || filenames.isEmpty then
    ⟨"⚠️ Please upload at least one file before processing.", false, false, false⟩
  else if !(filenames.filter (fun f => !(strEndsWith (strLower f) ".pdf"))).isEmpty then
    ⟨"❌ Invalid file types detected: " ++
      String.intercalate ", " (filenames.filter (fun f => !(strEndsWith (strLower f) ".pdf"))) ++
      ". Please upload only PDF files.", false, false, false⟩
  else if !env.uploadOk then
    ⟨"❌ Failed to upload files: " ++ env.uploadErrMsg, false, false, false⟩
  else
    match env.parseRes with
    | DbRes.err m => ⟨"❌ Parse query failed: " ++ m, false, false, false⟩
    | _ =>
      match env.countRes with
      | DbRes.err m => ⟨"❌ Parse query failed: " ++ m, false, false, false⟩
      | DbRes.noTable =>
          ⟨"⚠️ Parse query completed but no data found in table.", false, false, false⟩
      | DbRes.df isEmpty rc =>
        if isEmpty || rc == 0 then
          ⟨"⚠️ Parse query completed but no data found in table.", false, false, false⟩
        else
          match env.sampleRes with
          | DbRes.err m => ⟨"❌ Parse query failed: " ++ m, false, false, false⟩
          | _ => probe_stage endpoint rc env

theorem parse_and_run_ai_reaches_probe (n_clicks : Nat)
    (contents filenames : List String) (endpoint : String) (env : PipelineEnv)
    (rc : Nat) (hn : n_clicks ≠ 0) (hc : contents ≠ []) (hf : filenames ≠ [])
    (hvalid : filenames.filter (fun f => !(strEndsWith (strLower f) ".pdf")) = [])
    (hup : env.uploadOk = true)
    (hparse : env.parseRes.isErr = false)
    (hcount : env.countRes = DbRes.df false rc) (hrc : rc ≠ 0)
    (hsample : env.sampleRes.isErr = false) :
    parse_and_run_ai n_clicks contents filenames endpoint env =
      probe_stage endpoint rc env := by
  obtain ⟨c, cs, rfl⟩ := List.exists_cons_of_ne_nil hc
  obtain ⟨f, fs, rfl⟩ := List.exists_cons_of_ne_nil hf
  obtain ⟨uo, ue, pr, cr, sr, qr, a1, a2, a3, ft1, ft2⟩ := env
  replace hup : uo = true := hup
  subst hup
  replace hcount : cr = DbRes.df false rc := hcount
  subst hcount
  replace hparse : pr.isErr = false := hparse
  replace hsample : sr.isErr = false := hsample
  cases pr with
  | err m => simp [DbRes.isErr] at hparse
  | noTable =>
      cases sr with
      | err m => simp [DbRes.isErr] at hsample
      | noTable =>
          simp only [parse_and_run_ai]
          rw [if_neg (by simp [hn]), if_neg (by simp), if_neg (by rw [hvalid]; simp),
            if_neg (by simp), if_neg (by simp [hrc])]
      | df se sk =>
          simp only [parse_and_run_ai]
          rw [if_neg (by simp [hn]), if_neg (by simp), if_neg (by rw [hvalid]; simp),
            if_neg (by simp), if_neg (by simp [hrc])]
  | df pe pk =>
      cases sr with
      | err m => simp [DbRes.isErr] at hsample
      | noTable =>
          simp only [parse_and_run_ai]
          rw [if_neg (by simp [hn]), if_neg (by simp), if_neg (by rw [hvalid]; simp),
            if_neg (by simp), if_neg (by simp [hrc])]
      | df se sk =>
          simp only [parse_and_run_ai]
          rw [if_neg (by simp [hn]), if_neg (by simp), if_neg (by rw [hvalid]; simp),
            if_neg (by simp), if_neg (by simp [hrc])]

/-- Claim C4: when the parse step completes but the row-count check finds
zero rows, `parse_and_run_ai` returns the distinct parsed-but-empty
status and stops: the AI-endpoint probe and the batch `ai_query`
invocation are never executed in that run. -/
theorem C4_parse_empty_short_circuits (n_clicks : Nat)
    (contents filenames : List String) (endpoint : String) (env : PipelineEnv)
    (hn : n_clicks ≠ 0) (hc : contents ≠ []) (hf : filenames ≠ [])
    (hvalid : filenames.filter (fun f => !(strEndsWith (strLower f) ".pdf")) = [])
    (hup : env.uploadOk = true)
    (hparse : env.parseRes.isErr = false)
    (hcount : env.countRes = DbRes.df false 0) :
    parse_and_run_ai n_clicks contents filenames endpoint env =
      ⟨"⚠️ Parse query completed but no data found in table.",
        false, false, false⟩ := by
  obtain ⟨c, cs, rfl⟩ := List.exists_cons_of_ne_nil hc
  obtain ⟨f, fs, rfl⟩ := List.exists_cons_of_ne_nil hf
  obtain ⟨uo, ue, pr, cr, sr, qr, a1, a2, a3, ft1, ft2⟩ := env
  replace hup : uo = true := hup
  subst hup
  replace hcount : cr = DbRes.df false 0 := hcount
  subst hcount
  replace hparse : pr.isErr = false := hparse
  cases pr with
  | err m => simp [DbRes.isErr] at hparse
  | noTable =>
      simp only [parse_and_run_ai]
      rw [if_neg (by simp [hn]), if_neg (by simp), if_neg (by rw [hvalid]; simp),
        if_neg (by simp), if_pos (by simp)]
  | df pe pk =>
      simp only [parse_and_run_ai]
      rw [if_neg (by simp [hn]), if_neg (by simp), if_neg (by rw [hvalid]; simp),
        if_neg (by simp), if_pos (by simp)]

/-- Witness for C4 at a concrete input: one valid PDF upload, parse
succeeds, the count query reports zero rows. -/
theorem C4_witness :
    ((1 : Nat) ≠ 0 ∧ (["data:application/pdf;base64,AAAA"] : List String) ≠ [] ∧
      (["brochure.pdf"] : List String) ≠ [] ∧
      (["brochure.pdf"] : List String).filter (fun f => !(strEndsWith (strLower f) ".pdf")) = [] ∧
      (⟨true, "", DbRes.noTable, DbRes.df false 0, DbRes.noTable, DbRes.noTable,
        DbRes.noTable, DbRes.noTable, DbRes.noTable, DbRes.noTable, DbRes.noTable⟩ :
          PipelineEnv).uploadOk = true) ∧
    parse_and_run_ai 1 ["data:application/pdf;base64,AAAA"] ["brochure.pdf"] "llm-endpoint"
      ⟨true, "", DbRes.noTable, DbRes.df false 0, DbRes.noTable, DbRes.noTable,
        DbRes.noTable, DbRes.noTable, DbRes.noTable, DbRes.noTable, DbRes.noTable⟩ =
      ⟨"⚠️ Parse query completed but no data found in table.", false, false, false⟩ :=
  ⟨⟨by decide, by simp, by simp, by decide, rfl⟩,
    C4_parse_empty_short_circuits 1 ["data:application/pdf;base64,AAAA"]
      ["brochure.pdf"] "llm-endpoint"
      ⟨true, "", DbRes.noTable, DbRes.df false 0, DbRes.noTable, DbRes.noTable,
        DbRes.noTable, DbRes.noTable, DbRes.noTable, DbRes.noTable, DbRes.noTable⟩
      (by decide) (by simp) (by simp) (by decide) rfl rfl rfl⟩

/-- Counterexample to C3 as stated: for a probe failure whose message is
not an endpoint-not-found error, the run aborts — the probe ran but the
batch AI invocation and the structured extraction did not, and the
failure is only reported in the returned status. -/
theorem C3_counterexample :
    (parse_and_run_ai 1 ["data:application/pdf;base64,AAAA"] ["brochure.pdf"]
      "llm-endpoint"
      ⟨true, "", DbRes.noTable, DbRes.df false 2, DbRes.df false 2,
        DbRes.err "connection timeout", DbRes.noTable, DbRes.df false 2,
        DbRes.df false 2, DbRes.noTable, DbRes.df false 2⟩).probeRan = true ∧
    (parse_and_run_ai 1 ["data:application/pdf;base64,AAAA"] ["brochure.pdf"]
      "llm-endpoint"
      ⟨true, "", DbRes.noTable, DbRes.df false 2, DbRes.df false 2,
        DbRes.err "connection timeout", DbRes.noTable, DbRes.df false 2,
        DbRes.df false 2, DbRes.noTable, DbRes.df false 2⟩).aiBatchRan = false ∧
    (parse_and_run_ai 1 ["data:application/pdf;base64,AAAA"] ["brochure.pdf"]
      "llm-endpoint"
      ⟨true, "", DbRes.noTable, DbRes.df false 2, DbRes.df false 2,
        DbRes.err "connection timeout", DbRes.noTable, DbRes.df false 2,
        DbRes.df false 2, DbRes.noTable, DbRes.df false 2⟩).featuresRan = false ∧
    (parse_and_run_ai 1 ["data:application/pdf;base64,AAAA"] ["brochure.pdf"]
      "llm-endpoint"
      ⟨true, "", DbRes.noTable, DbRes.df false 2, DbRes.df false 2,
        DbRes.err "connection timeout", DbRes.noTable, DbRes.df false 2,
        DbRes.df false 2, DbRes.noTable, DbRes.df false 2⟩).status =
      "✅ Success! Parsed 2 documents. AI endpoint test failed: connection timeout" :=
  ⟨by decide, by decide, by decide, by decide⟩

/-- Claim C3 (amended): in the AI-endpoint probe step, an
endpoint-not-found failure produces the distinct error message that
names the configured endpoint; every other probe failure — an exception
with a different message, or a missing or empty probe response — is
reported in the returned status but aborts the run: the batch AI
invocation and the structured-extraction step do not run. -/
theorem C3_probe_failure_reporting (n_clicks : Nat)
    (contents filenames : List String) (endpoint : String) (env : PipelineEnv)
    (rc : Nat) (hn : n_clicks ≠ 0) (hc : contents ≠ []) (hf : filenames ≠ [])
    (hvalid : filenames.filter (fun f => !(strEndsWith (strLower f) ".pdf")) = [])
    (hup : env.uploadOk = true)
    (hparse : env.parseRes.isErr = false)
    (hcount : env.countRes = DbRes.df false rc) (hrc : rc ≠ 0)
    (hsample : env.sampleRes.isErr = false) :
    (∀ m, env.probeRes = DbRes.err m →
      parse_and_run_ai n_clicks contents filenames endpoint env =
        ⟨if notFoundErr m then endpointNotFoundMsg endpoint
          else "✅ Success! Parsed " ++ toString rc ++
            " documents. AI endpoint test failed: " ++ m, true, false, false⟩) ∧
    (env.probeRes = DbRes.noTable →
      parse_and_run_ai n_clicks contents filenames endpoint env =
        ⟨"✅ Success! Parsed " ++ toString rc ++
          " documents. AI endpoint test failed - no response.", true, false, false⟩) ∧
    (∀ k, env.probeRes = DbRes.df true k →
      parse_and_run_ai n_clicks contents filenames endpoint env =
        ⟨"✅ Success! Parsed " ++ toString rc ++
          " documents. AI endpoint test failed - no response.", true, false, false⟩) := by
  have hred := parse_and_run_ai_reaches_probe n_clicks contents filenames endpoint
    env rc hn hc hf hvalid hup hparse hcount hrc hsample
  refine ⟨?_, ?_, ?_⟩
  · intro m hm
    rw [hred]
    simp only [probe_stage, hm]
    by_cases hnf : notFoundErr m = true
    · rw [if_pos hnf, if_pos hnf]
    · rw [if_neg hnf, if_neg hnf]
  · intro hm
    rw [hred]
    simp only [probe_stage, hm]
  · intro k hm
    rw [hred]
    simp only [probe_stage, hm]

/-- Witness for C3 at a concrete input: an endpoint-not-found probe
failure yields the distinct message naming the endpoint and the batch
step does not run. -/
theorem C3_witness :
    ((1 : Nat) ≠ 0 ∧ (2 : Nat) ≠ 0 ∧
      (⟨true, "", DbRes.noTable, DbRes.df false 2, DbRes.df false 2,
        DbRes.err "RESOURCE_DOES_NOT_EXIST: no endpoint", DbRes.noTable,
        DbRes.df false 2, DbRes.df false 2, DbRes.noTable, DbRes.df false 2⟩ :
          PipelineEnv).probeRes = DbRes.err "RESOURCE_DOES_NOT_EXIST: no endpoint") ∧
    parse_and_run_ai 1 ["data:application/pdf;base64,AAAA"] ["brochure.pdf"]
      "llm-endpoint"
      ⟨true, "", DbRes.noTable, DbRes.df false 2, DbRes.df false 2,
        DbRes.err "RESOURCE_DOES_NOT_EXIST: no endpoint", DbRes.noTable,
        DbRes.df false 2, DbRes.df false 2, DbRes.noTable, DbRes.df false 2⟩ =
      ⟨if notFoundErr "RESOURCE_DOES_NOT_EXIST: no endpoint" then
          endpointNotFoundMsg "llm-endpoint"
        else "✅ Success! Parsed " ++ toString 2 ++
          " documents. AI endpoint test failed: " ++
          "RESOURCE_DOES_NOT_EXIST: no endpoint", true, false, false⟩ :=
  ⟨⟨by decide, by decide, rfl⟩,
    (C3_probe_failure_reporting 1 ["data:application/pdf;base64,AAAA"]
      ["brochure.pdf"] "llm-endpoint"
      ⟨true, "", DbRes.noTable, DbRes.df false 2, DbRes.df false 2,
        DbRes.err "RESOURCE_DOES_NOT_EXIST: no endpoint", DbRes.noTable,
        DbRes.df false 2, DbRes.df false 2, DbRes.noTable, DbRes.df false 2⟩ 2
      (by decide) (by simp) (by simp) (by decide) rfl rfl rfl (by decide) rfl).1
      "RESOURCE_DOES_NOT_EXIST: no endpoint" rfl⟩
